import Mathlib

/-
Verification of the test-run reporting client (APIHelper) of the
Puppeteer-Jest-Nodejs-Web repository.

The repository ships two variants of the APIHelper class inside
jest.config.js.  Namespace V1 models the first variant (the one whose
afterEachTest takes an errorMessage argument and whose file helpers wrap
every file operation in try/catch); namespace V2 models the second variant
(the one with formatDuration, a feature argument, and bare file helpers).

Modelling conventions:
  - Wall-clock instants are integers (milliseconds); each operation takes
    the current time as an explicit argument.  The source calls new Date()
    a few times inside one operation; the model uses one instant per
    operation, which no claim distinguishes.
  - The outcome of the single axios call an operation makes is an explicit
    argument of type NetOutcome: either a resolved response carrying an
    HTTP status and decoded data, or a rejected promise (network error or
    timeout).
  - The outcome of each fallible filesystem operation is an explicit
    Boolean argument (true = the operation succeeded).
  - The persisted .test-cases.json file is a field of the state:
    none models a missing file, some l a file holding the JSON array l.
  - Durations are kept in integer milliseconds.  The first variant sends
    seconds as a float rounded to two decimals; no claim depends on that
    scaling, so the model keeps the exact millisecond count.  Integer
    division by 1000 coincides with Math.floor on the non-negative values
    a monotone clock produces.
  - JavaScript truthiness on strings (empty string is falsy) is modelled
    by the jsStr normalisation below.
  - Exceptions that the source lets escape an operation are modelled with
    Except; operations whose source catches every exception are total
    functions.
-/

/-- Outcome of one axios request: either a resolved response with an HTTP
status code and decoded body, or a rejected promise (network error,
timeout; with default axios settings a non-2xx status also surfaces as a
rejection, but the first variant additionally branches on the status of a
resolved response, so the model keeps both forms). -/
inductive NetOutcome (α : Type) where
  | resp (status : Nat) (data : α)
  | fail
deriving Repr

/-- True exactly when the outcome is a resolved response with 2xx status. -/
def NetOutcome.ok2xx {α : Type} : NetOutcome α → Bool
  | .resp s _ => 200 ≤ s && s < 300
  | .fail => false

/-- JavaScript truthiness for nullable strings: the empty string is falsy,
so (x or null) turns both null and the empty string into null. -/
def jsStr : Option String → Option String
  | some s => if s = "" then none else some s
  | none => none

/-- Model of the JavaScript String.prototype.substring(0, 500) used to
truncate error messages (code-unit count modelled as character count). -/
def truncate500 (m : String) : String :=
  String.mk (m.data.take 500)

/-- Model of String(n).padStart(2, the zero character): pad the decimal
rendering on the left with zeros up to length two. -/
def padStart2 (s : String) : String :=
  if s.length < 2 then String.mk (List.replicate (2 - s.length) '0') ++ s
  else s

namespace V1

/-- Configuration values the first variant reads (config.js and
environment metadata captured at construction time). -/
structure Config where
  jobName : String
  buildNumber : String
  buildUrl : String
  gitBranch : String
  gitCommit : String
  triggeredBy : String
  platform : String
  environment : String
  orgId : String
  createdBy : String
deriving Repr, DecidableEq

/-- One element of the persisted .test-cases.json array, as written by
saveTestCaseToFile of the first variant. -/
structure TestCaseRec where
  test_id : String
  name : String
  status : String
  durationMs : Int
  timestamp : Int
deriving Repr, DecidableEq

/-- Mutable state of the first APIHelper variant plus the two pieces of
ambient state it touches: the PIPELINE_RUN_ID environment variable and the
persisted test-cases file. -/
structure ReporterState where
  isJenkins : Bool
  pipelineRunId : Option String
  envRunId : Option String
  startTime : Option Int
  testStartTime : Option Int
  file : Option (List TestCaseRec)
  cfg : Config
deriving Repr, DecidableEq

/-- Body of the request POSTed to /api/pipeline-runs/ by beforeAllTests. -/
structure StartPayload where
  job_name : String
  build_number : String
  branch : String
  commit_hash : String
  triggered_by : String
  start_time : Int
  status : String
  environment : String
  browser : String
  browser_version : String
  platform : String
  framework : String
  organization : String
  created_by : String
deriving Repr, DecidableEq

/-- Body of the request POSTed to /api/test-cases/ by afterEachTest. -/
structure TestCasePayload where
  name : String
  status : String
  run : String
  durationMs : Int
  created_at : Int
  start_time : Int
  error_message : Option String
deriving Repr, DecidableEq

/-- Body of the PATCH to /api/pipeline-runs/id/ sent by afterAllTests. -/
structure FinishPayload where
  status : String
  end_time : Int
  duration : Int
  total_tests : Nat
  passed : Nat
  failed : Nat
  aborted : Nat
deriving Repr, DecidableEq

/-- Decoded response body of the run-creation call (data.run_id). -/
structure RunResp where
  run_id : String
deriving Repr, DecidableEq

/-- Decoded response body of the test-case-creation call (data.test_id,
possibly absent). -/
structure TCResp where
  test_id : Option String
deriving Repr, DecidableEq

/-- The single network request an operation may issue, together with its
payload (the endpoint is determined by the constructor). -/
inductive Request where
  | createRun (p : StartPayload)
  | createTestCase (p : TestCasePayload)
  | updateRun (id : String) (p : FinishPayload)
deriving Repr, DecidableEq

/-- Result of one operation: the value returned to the caller (none models
the null returns of the source), the state after the call, and the network
request issued during the call, if any. -/
structure StepResult (ρ : Type) where
  ret : Option ρ
  st : ReporterState
  net : Option Request
deriving Repr

/-- getPipelineRunId: return the cached id if truthy, otherwise load it
from the PIPELINE_RUN_ID environment variable (or null). -/
def getPipelineRunId (st : ReporterState) : Option String × ReporterState :=
  match jsStr st.pipelineRunId with
  | some id => (some id, st)
  | none =>
      let e := jsStr st.envRunId
      (e, { st with pipelineRunId := e })

/-- clearTestCasesFile of the first variant: overwrite the file with an
empty array; every error is caught and logged, leaving the file as it was. -/
def clearTestCasesFile (st : ReporterState) (clearOk : Bool) : ReporterState :=
  if clearOk then { st with file := some [] } else st

/-- saveTestCaseToFile of the first variant: read the current array (an
empty array if the file is missing), push one record, write the array
back; every error is caught and logged, leaving the file as it was. -/
def saveTestCaseToFile (st : ReporterState) (testId name status : String)
    (durationMs : Int) (now : Int) (saveOk : Bool) : ReporterState :=
  if saveOk then
    { st with file := some (st.file.getD [] ++
        [⟨testId, name, status, durationMs, now⟩]) }
  else st

/-- readTestCasesFromFile of the first variant: an empty array if the file
is missing or any error occurs, otherwise the stored array. -/
def readTestCasesFromFile (st : ReporterState) (readOk : Bool) :
    List TestCaseRec :=
  match st.file with
  | none => []
  | some l => if readOk then l else []

/-- markTestStart: record the start instant of the next test. -/
def markTestStart (st : ReporterState) (now : Int) : ReporterState :=
  { st with testStartTime := some now }

/-- Duration computation of afterEachTest: time since the last mark, zero
if markTestStart was never called. -/
def computeDurationMs (st : ReporterState) (now : Int) : Int :=
  match st.testStartTime with
  | some t => now - t
  | none => 0

/-- Payload of the run-creation request built by beforeAllTests. -/
def startPayload (st : ReporterState) (now : Int) : StartPayload :=
  { job_name := st.cfg.jobName
    build_number := (jsStr (some st.cfg.buildNumber)).getD "local"
    branch := st.cfg.gitBranch
    commit_hash := st.cfg.gitCommit
    triggered_by := st.cfg.triggeredBy
    start_time := now
    status := "running"
    environment := st.cfg.environment
    browser := "chrome"
    browser_version := "latest"
    platform := st.cfg.platform
    framework := "puppeteer"
    organization := st.cfg.orgId
    created_by := st.cfg.createdBy }

/-- beforeAllTests of the first variant (API-1).  Skips everything when
disabled; records the start time; clears the persisted file; posts the
run-creation request; on a 2xx response caches the returned run id and
stores it in the environment variable; returns the decoded body, or null
on a non-2xx response or a rejected promise.  Every exception is caught
inside the source, so the operation is a total function. -/
def beforeAllTests (st : ReporterState) (now : Int) (clearOk : Bool)
    (netOut : NetOutcome RunResp) : StepResult RunResp :=
  if !st.isJenkins then ⟨none, st, none⟩
  else
    let st1 := clearTestCasesFile { st with startTime := some now } clearOk
    let p := startPayload st1 now
    match netOut with
    | .resp s d =>
        if 200 ≤ s ∧ s < 300 then
          ⟨some d,
           { st1 with pipelineRunId := some d.run_id,
                      envRunId := some d.run_id },
           some (.createRun p)⟩
        else ⟨none, st1, some (.createRun p)⟩
    | .fail => ⟨none, st1, some (.createRun p)⟩

/-- Error-message field of the test-case payload: present exactly when the
errorMessage argument is truthy (non-null and non-empty) and the status is
the failed status, truncated to 500 characters. -/
def errorField (errorMessage : Option String) (testStatus : String) :
    Option String :=
  match errorMessage with
  | some m => if m ≠ "" ∧ testStatus = "failed" then some (truncate500 m)
              else none
  | none => none

/-- afterEachTest of the first variant (API-3).  Skips when disabled or
when no run id is resolvable; computes the duration since the last mark;
posts the test-case payload; on a 2xx response appends the compact record
to the persisted file and returns the decoded body; on a non-2xx response
or a rejected promise returns null without touching the file.  Every
exception is caught inside the source, so the operation is total. -/
def afterEachTest (st : ReporterState) (testTitle testStatus : String)
    (errorMessage : Option String) (now : Int)
    (netOut : NetOutcome TCResp) (saveOk : Bool) : StepResult TCResp :=
  if !st.isJenkins then ⟨none, st, none⟩
  else
    match getPipelineRunId st with
    | (none, st1) => ⟨none, st1, none⟩
    | (some rid, st1) =>
        let durationMs := computeDurationMs st1 now
        let p : TestCasePayload :=
          { name := testTitle
            status := testStatus
            run := rid
            durationMs := durationMs
            created_at := now
            start_time := st1.testStartTime.getD now
            error_message := errorField errorMessage testStatus }
        match netOut with
        | .resp s d =>
            if 200 ≤ s ∧ s < 300 then
              let testCaseId := (jsStr d.test_id).getD "N/A"
              ⟨some d,
               saveTestCaseToFile st1 testCaseId testTitle testStatus
                 durationMs now saveOk,
               some (.createTestCase p)⟩
            else ⟨none, st1, some (.createTestCase p)⟩
        | .fail => ⟨none, st1, some (.createTestCase p)⟩

/-- Final aggregate computed by afterAllTests of the first variant from
the records read back from the file: counts of each status (the source
special-cases the empty list to all-zero counts), overall status failed
exactly when the failed count is non-zero, and the elapsed whole seconds
since the recorded start time (zero if no start time was recorded). -/
def finishPayload (testCases : List TestCaseRec) (startTime : Option Int)
    (now : Int) : FinishPayload :=
  let finalTotal := if testCases.length > 0 then testCases.length else 0
  let finalPassed := if testCases.length > 0 then
      (testCases.filter (fun tc => tc.status == "passed")).length else 0
  let finalFailed := if testCases.length > 0 then
      (testCases.filter (fun tc => tc.status == "failed")).length else 0
  let finalSkipped := if testCases.length > 0 then
      (testCases.filter (fun tc => tc.status == "skipped")).length else 0
  let finalStatus := if finalFailed = 0 then "passed" else "failed"
  let durationSeconds : Int :=
    match startTime with
    | some t => (now - t) / 1000
    | none => 0
  { status := finalStatus
    end_time := now
    duration := durationSeconds
    total_tests := finalTotal
    passed := finalPassed
    failed := finalFailed
    aborted := finalSkipped }

/-- afterAllTests of the first variant (API-4).  Skips when disabled or
when no run id is resolvable; reads the persisted records back; PATCHes
the aggregate payload; returns the decoded body on a 2xx response, null
otherwise.  Every exception is caught inside the source, so the operation
is total. -/
def afterAllTests {α : Type} (st : ReporterState) (now : Int)
    (readOk : Bool) (netOut : NetOutcome α) : StepResult α :=
  if !st.isJenkins then ⟨none, st, none⟩
  else
    match getPipelineRunId st with
    | (none, st1) => ⟨none, st1, none⟩
    | (some rid, st1) =>
        let testCases := readTestCasesFromFile st1 readOk
        let p := finishPayload testCases st1.startTime now
        match netOut with
        | .resp s d =>
            if 200 ≤ s ∧ s < 300 then ⟨some d, st1, some (.updateRun rid p)⟩
            else ⟨none, st1, some (.updateRun rid p)⟩
        | .fail => ⟨none, st1, some (.updateRun rid p)⟩

end V1

namespace V2

/-- Model of the HH:MM:SS rendering produced by formatDuration of the
second variant: whole seconds, split into hours, minutes and seconds,
each padded to at least two digits. -/
def formatDuration (ms : Nat) : String :=
  let totalSeconds := ms / 1000
  let hours := padStart2 (toString (totalSeconds / 3600))
  let minutes := padStart2 (toString ((totalSeconds % 3600) / 60))
  let seconds := padStart2 (toString (totalSeconds % 60))
  hours ++ ":" ++ minutes ++ ":" ++ seconds

/-- Configuration values the second variant reads. -/
structure Config where
  jobName : String
  buildNumber : String
  buildUrl : String
  gitBranch : String
  gitCommit : String
  environment : String
  orgId : String
  createdBy : String
deriving Repr, DecidableEq

/-- One element of the persisted .test-cases.json array, as written by
saveTestCaseToFile of the second variant (the duration is the already
formatted HH:MM:SS string of the payload). -/
structure TestCaseRec where
  name : String
  feature : String
  status : String
  duration : String
deriving Repr, DecidableEq

/-- Mutable state of the second APIHelper variant plus the environment
variable and the persisted test-cases file. -/
structure ReporterState where
  isJenkins : Bool
  pipelineRunId : Option String
  envRunId : Option String
  startTime : Option Int
  testStartTime : Option Int
  file : Option (List TestCaseRec)
  cfg : Config
deriving Repr, DecidableEq

/-- Body of the request POSTed to /api/pipeline-runs/ by the second
variant (build_number is coerced with Number(x) or 0, modelled by decimal
parsing with default zero). -/
structure StartPayload where
  name : String
  repo_name : String
  environment : String
  org : String
  created_by : String
  build_number : Nat
  build_url : String
  branch : String
  git_commit : String
  status : String
  start_time : Int
deriving Repr, DecidableEq

/-- Body of the request POSTed to /api/test-cases/ by the second variant.
When markTestStart was never called, new Date(null) in the source renders
the epoch, modelled as instant zero. -/
structure TestCasePayload where
  run : String
  name : String
  feature : String
  status : String
  duration : String
  start_time : Int
  end_time : Int
  report_link : String
deriving Repr, DecidableEq

/-- Body of the PATCH sent by afterAllTests of the second variant. -/
structure FinishPayload where
  status : String
  end_time : Int
  total_tests : Nat
  passed : Nat
  failed : Nat
  aborted : Nat
deriving Repr, DecidableEq

/-- Decoded response body of the run-creation call of the second variant:
the optional chain response.data.pipeline_run.run_id, absent when any
link of the chain is missing. -/
structure RunResp where
  run_id : Option String
deriving Repr, DecidableEq

/-- The single network request an operation of the second variant may
issue. -/
inductive Request where
  | createRun (p : StartPayload)
  | createTestCase (p : TestCasePayload)
  | updateRun (id : String) (p : FinishPayload)
deriving Repr, DecidableEq

/-- Result of one operation of the second variant (same reading as for
the first variant). -/
structure StepResult (ρ : Type) where
  ret : Option ρ
  st : ReporterState
  net : Option Request
deriving Repr

/-- getPipelineRunId of the second variant (same code as the first). -/
def getPipelineRunId (st : ReporterState) : Option String × ReporterState :=
  match jsStr st.pipelineRunId with
  | some id => (some id, st)
  | none =>
      let e := jsStr st.envRunId
      (e, { st with pipelineRunId := e })

/-- clearTestCasesFile of the second variant: no try/catch in the source,
so a write failure escapes as an exception. -/
def clearTestCasesFile (st : ReporterState) (clearOk : Bool) :
    Except String ReporterState :=
  if clearOk then .ok { st with file := some [] }
  else .error "clearTestCasesFile write error"

/-- readTestCasesFromFile of the second variant: empty array if the file
is missing; no try/catch, so a read failure escapes as an exception. -/
def readTestCasesFromFile (st : ReporterState) (readOk : Bool) :
    Except String (List TestCaseRec) :=
  match st.file with
  | none => .ok []
  | some l => if readOk then .ok l else .error "readTestCasesFromFile read error"

/-- saveTestCaseToFile of the second variant: read the current array,
push one record, write it back; a read or write failure escapes as an
exception (the file is left unchanged). -/
def saveTestCaseToFile (st : ReporterState) (tc : TestCaseRec)
    (saveOk : Bool) : Except String ReporterState :=
  if saveOk then .ok { st with file := some (st.file.getD [] ++ [tc]) }
  else .error "saveTestCaseToFile io error"

/-- markTestStart of the second variant. -/
def markTestStart (st : ReporterState) (now : Int) : ReporterState :=
  { st with testStartTime := some now }

/-- Duration computation of afterEachTest of the second variant. -/
def computeDurationMs (st : ReporterState) (now : Int) : Int :=
  match st.testStartTime with
  | some t => now - t
  | none => 0

/-- Payload of the run-creation request built by the second variant. -/
def startPayload (st : ReporterState) (now : Int) : StartPayload :=
  { name := st.cfg.jobName ++ " - Build #" ++ st.cfg.buildNumber
    repo_name := "Puppeteer-Jest-Web"
    environment := st.cfg.environment
    org := st.cfg.orgId
    created_by := st.cfg.createdBy
    build_number := (st.cfg.buildNumber.toNat?).getD 0
    build_url := st.cfg.buildUrl
    branch := st.cfg.gitBranch
    git_commit := st.cfg.gitCommit
    status := "running"
    start_time := now }

/-- beforeAllTests of the second variant (API-1).  Skips when disabled;
records the start time; clears the persisted file OUTSIDE the try block,
so a file write failure propagates to the caller; then posts the
run-creation request and reads response.data.pipeline_run.run_id without
checking the HTTP status; a missing or empty run id raises inside the try
block and is caught, returning null; a rejected promise is caught and
returns null. -/
def beforeAllTests (st : ReporterState) (now : Int) (clearOk : Bool)
    (netOut : NetOutcome RunResp) : Except String (StepResult RunResp) := do
  if !st.isJenkins then return ⟨none, st, none⟩
  let st1 ← clearTestCasesFile { st with startTime := some now } clearOk
  let p := startPayload st1 now
  match netOut with
  | .fail => return ⟨none, st1, some (.createRun p)⟩
  | .resp _ d =>
      match jsStr d.run_id with
      | none =>
          return ⟨none, { st1 with pipelineRunId := jsStr d.run_id },
                  some (.createRun p)⟩
      | some id =>
          return ⟨some d,
                  { st1 with pipelineRunId := some id, envRunId := some id },
                  some (.createRun p)⟩

/-- afterEachTest of the second variant (API-3).  Skips when disabled or
when no run id is resolvable; builds the payload with the formatted
duration; posts it; any resolved response then triggers the local append
(the source never checks the HTTP status); a rejected promise, or a file
failure during the append, is caught by the surrounding try/catch and
returns null, so this operation never raises. -/
def afterEachTest {α : Type} (st : ReporterState)
    (testTitle testStatus feature : String) (now : Int)
    (netOut : NetOutcome α) (saveOk : Bool) : StepResult α :=
  if !st.isJenkins then ⟨none, st, none⟩
  else
    match getPipelineRunId st with
    | (none, st1) => ⟨none, st1, none⟩
    | (some rid, st1) =>
        let durationMs := computeDurationMs st1 now
        let p : TestCasePayload :=
          { run := rid
            name := testTitle
            feature := feature
            status := testStatus
            duration := formatDuration durationMs.toNat
            start_time := st1.testStartTime.getD 0
            end_time := now
            report_link := st1.cfg.buildUrl }
        match netOut with
        | .fail => ⟨none, st1, some (.createTestCase p)⟩
        | .resp _ d =>
            match saveTestCaseToFile st1
                ⟨testTitle, feature, testStatus, p.duration⟩ saveOk with
            | .ok st2 => ⟨some d, st2, some (.createTestCase p)⟩
            | .error _ => ⟨none, st1, some (.createTestCase p)⟩

/-- Final aggregate computed by afterAllTests of the second variant. -/
def finishPayload (tests : List TestCaseRec) (now : Int) : FinishPayload :=
  let passed := (tests.filter (fun t => t.status == "passed")).length
  let failed := (tests.filter (fun t => t.status == "failed")).length
  let skipped := (tests.filter (fun t => t.status == "skipped")).length
  { status := if failed > 0 then "failed" else "passed"
    end_time := now
    total_tests := tests.length
    passed := passed
    failed := failed
    aborted := skipped }

/-- afterAllTests of the second variant (API-4).  Skips when disabled or
when no run id is resolvable; reads the persisted records OUTSIDE the try
block, so a file read failure propagates to the caller; PATCHes the
aggregate; any resolved response returns the decoded body, a rejected
promise is caught and returns null. -/
def afterAllTests {α : Type} (st : ReporterState) (now : Int)
    (readOk : Bool) (netOut : NetOutcome α) :
    Except String (StepResult α) := do
  if !st.isJenkins then return ⟨none, st, none⟩
  match getPipelineRunId st with
  | (none, st1) => return ⟨none, st1, none⟩
  | (some rid, st1) =>
      let tests ← readTestCasesFromFile st1 readOk
      let p := finishPayload tests now
      match netOut with
      | .fail => return ⟨none, st1, some (.updateRun rid p)⟩
      | .resp _ d => return ⟨some d, st1, some (.updateRun rid p)⟩

end V2

namespace V1

/-- State of a freshly constructed first-variant helper: no cached run
id, no start or test-start instant; the enable flag, the ambient
environment variable and whatever file is already on disk are
parameters. -/
def initialState (cfg : Config) (enabled : Bool) (env0 : Option String)
    (file0 : Option (List TestCaseRec)) : ReporterState :=
  { isJenkins := enabled
    pipelineRunId := none
    envRunId := env0
    startTime := none
    testStartTime := none
    file := file0
    cfg := cfg }

/-- One recordTest invocation of the first variant as the harness issues
it, together with the outcomes of its side effects: the instant of the
markTestStart call immediately preceding the test, the instant of the
afterEachTest call, the arguments, the outcome of the network request and
of the local file append. -/
structure RecCall where
  title : String
  status : String
  err : Option String
  markAt : Int
  endAt : Int
  net : NetOutcome TCResp
  saveOk : Bool

/-- One harness step for one test: markTestStart immediately before the
test, then afterEachTest when it completes. -/
def step (st : ReporterState) (c : RecCall) : ReporterState :=
  (afterEachTest (markTestStart st c.markAt) c.title c.status c.err c.endAt
    c.net c.saveOk).st

/-- The compact record a recordTest call of the first variant persists,
when it persists one: it does so exactly when the network request
resolved with a 2xx status and the local append succeeded. -/
def persistedOf (c : RecCall) : Option TestCaseRec :=
  match c.net with
  | .resp s d =>
      if (200 ≤ s ∧ s < 300) ∧ c.saveOk then
        some ⟨(jsStr d.test_id).getD "N/A", c.title, c.status,
              c.endAt - c.markAt, c.endAt⟩
      else none
  | .fail => none

/-- One whole run of the first variant as the harness drives it: start,
one mark-and-record pair per test, finish.  Every side-effect outcome is
an explicit argument. -/
def runScript (cfg : Config) (env0 : Option String)
    (file0 : Option (List TestCaseRec)) (t0 : Int) (clearOk : Bool)
    (startNet : NetOutcome RunResp) (calls : List RecCall) (tEnd : Int)
    (readOk : Bool) (finNet : NetOutcome Unit) : StepResult Unit :=
  let r0 := beforeAllTests (initialState cfg true env0 file0) t0 clearOk
    startNet
  let stMid := calls.foldl step r0.st
  afterAllTests stMid tEnd readOk finNet

end V1

namespace V2

/-- State of a freshly constructed second-variant helper. -/
def initialState (cfg : Config) (enabled : Bool) (env0 : Option String)
    (file0 : Option (List TestCaseRec)) : ReporterState :=
  { isJenkins := enabled
    pipelineRunId := none
    envRunId := env0
    startTime := none
    testStartTime := none
    file := file0
    cfg := cfg }

/-- One recordTest invocation of the second variant as the harness issues
it, with the outcomes of its side effects. -/
structure RecCall where
  title : String
  status : String
  feature : String
  markAt : Int
  endAt : Int
  net : NetOutcome Unit
  saveOk : Bool

/-- One harness step for one test of the second variant. -/
def step (st : ReporterState) (c : RecCall) : ReporterState :=
  (afterEachTest (markTestStart st c.markAt) c.title c.status c.feature
    c.endAt c.net c.saveOk).st

/-- The compact record a recordTest call of the second variant persists,
when it persists one: it does so exactly when the network request
resolved (any HTTP status) and the local append succeeded. -/
def persistedOf (c : RecCall) : Option TestCaseRec :=
  match c.net with
  | .resp _ _ =>
      if c.saveOk then
        some ⟨c.title, c.feature, c.status,
              formatDuration (c.endAt - c.markAt).toNat⟩
      else none
  | .fail => none

/-- One whole run of the second variant as the harness drives it. -/
def runScript (cfg : Config) (env0 : Option String)
    (file0 : Option (List TestCaseRec)) (t0 : Int) (clearOk : Bool)
    (startNet : NetOutcome RunResp) (calls : List RecCall) (tEnd : Int)
    (readOk : Bool) (finNet : NetOutcome Unit) :
    Except String (StepResult Unit) := do
  let r0 ← beforeAllTests (initialState cfg true env0 file0) t0 clearOk
    startNet
  let stMid := calls.foldl step r0.st
  afterAllTests stMid tEnd readOk finNet

end V2

/-- Concrete configuration used by the concrete counterexamples and
witnesses below. -/
def cfg1 : V1.Config :=
  ⟨"job", "7", "http:url", "main", "abc", "jenkins", "linux", "test",
   "org", "me"⟩

/-- Concrete configuration for the second variant. -/
def cfg2 : V2.Config :=
  ⟨"job", "7", "http:url", "main", "abc", "test", "org", "me"⟩

/-- Concrete enabled first-variant state with a cached run id and an
empty persisted array on disk. -/
def stEnabled1 : V1.ReporterState :=
  { isJenkins := true
    pipelineRunId := some "r1"
    envRunId := none
    startTime := some 0
    testStartTime := some 0
    file := some []
    cfg := cfg1 }

/-- Concrete enabled second-variant state with a cached run id and an
empty persisted array on disk. -/
def stEnabled2 : V2.ReporterState :=
  { isJenkins := true
    pipelineRunId := some "r1"
    envRunId := none
    startTime := some 0
    testStartTime := some 0
    file := some []
    cfg := cfg2 }

/-
Helper lemmas shared by several claims.
-/

/-- Length of a string built from an explicit character list. -/
theorem stringMk_length (l : List Char) : (String.mk l).length = l.length :=
  rfl

/-- The padded rendering always has at least two characters. -/
theorem padStart2_length (s : String) : 2 ≤ (padStart2 s).length := by
  unfold padStart2
  split
  · rw [String.length_append, stringMk_length, List.length_replicate]
    omega
  · omega

/-- Truncation to 500 characters is bounded by 500. -/
theorem truncate500_length (m : String) : (truncate500 m).length ≤ 500 := by
  unfold truncate500
  rw [stringMk_length, List.length_take]
  omega

/-- Counts of two disjoint Boolean predicates add up to the count of
their disjunction. -/
theorem countP_add_disjoint {α : Type} (l : List α) (p q : α → Bool)
    (h : ∀ a, ¬(p a = true ∧ q a = true)) :
    l.countP p + l.countP q = l.countP (fun a => p a || q a) := by
  induction l with
  | nil => simp
  | cons a t ih =>
    simp only [List.countP_cons]
    cases hp : p a <;> cases hq : q a
    · simp [hp, hq]
      omega
    · simp [hp, hq]
      omega
    · simp [hp, hq]
      omega
    · exact absurd ⟨hp, hq⟩ (h a)

/-- The three status counts sum to at most the length, with equality
exactly when every element is one of the three statuses. -/
theorem count_three_statuses {α : Type} (l : List α) (f : α → String) :
    l.countP (fun a => f a == "passed") + l.countP (fun a => f a == "failed")
      + l.countP (fun a => f a == "skipped") ≤ l.length ∧
    (l.countP (fun a => f a == "passed") + l.countP (fun a => f a == "failed")
      + l.countP (fun a => f a == "skipped") = l.length ↔
      ∀ a ∈ l, f a = "passed" ∨ f a = "failed" ∨ f a = "skipped") := by
  have d1 : ∀ a, ¬((f a == "passed") = true ∧ (f a == "failed") = true) := by
    intro a
    simp only [beq_iff_eq]
    rintro ⟨h1, h2⟩
    rw [h1] at h2
    exact absurd h2 (by decide)
  have d2 : ∀ a, ¬((f a == "passed" || f a == "failed") = true ∧
      (f a == "skipped") = true) := by
    intro a
    simp only [Bool.or_eq_true, beq_iff_eq]
    rintro ⟨h1 | h1, h2⟩ <;> rw [h1] at h2 <;> exact absurd h2 (by decide)
  have e1 := countP_add_disjoint l _ _ d1
  have e2 := countP_add_disjoint l
    (fun a => f a == "passed" || f a == "failed") (fun a => f a == "skipped") d2
  rw [e1, e2]
  constructor
  · exact List.countP_le_length _
  · rw [List.countP_eq_length]
    constructor
    · intro h a ha
      have := h a ha
      simpa [Bool.or_eq_true, beq_iff_eq, or_assoc] using this
    · intro h a ha
      have := h a ha
      simpa [Bool.or_eq_true, beq_iff_eq, or_assoc] using this

/-- The aggregate of the first variant, rewritten without the redundant
empty-list special case (for the empty list every branch is zero anyway). -/
theorem V1.finishPayload_eq (tcs : List V1.TestCaseRec) (t0 : Option Int)
    (now : Int) :
    V1.finishPayload tcs t0 now =
      { status := if tcs.countP (fun tc => tc.status == "failed") = 0
                  then "passed" else "failed"
        end_time := now
        duration := match t0 with
                    | some t => (now - t) / 1000
                    | none => 0
        total_tests := tcs.length
        passed := tcs.countP (fun tc => tc.status == "passed")
        failed := tcs.countP (fun tc => tc.status == "failed")
        aborted := tcs.countP (fun tc => tc.status == "skipped") } := by
  cases tcs with
  | nil => simp [V1.finishPayload]
  | cons a t =>
      simp [V1.finishPayload, List.countP_eq_length_filter]

/-- The aggregate of the second variant, rewritten with counts. -/
theorem V2.finishPayload_counts (tests : List V2.TestCaseRec) (now : Int) :
    V2.finishPayload tests now =
      { status := if tests.countP (fun tc => tc.status == "failed") > 0
                  then "failed" else "passed"
        end_time := now
        total_tests := tests.length
        passed := tests.countP (fun tc => tc.status == "passed")
        failed := tests.countP (fun tc => tc.status == "failed")
        aborted := tests.countP (fun tc => tc.status == "skipped") } := by
  simp [V2.finishPayload, List.countP_eq_length_filter]

/-- One harness step of the first variant, taken in an enabled state with
a truthy cached run id and an existing file: it preserves the enable
flag, the cached run id, the start time and the environment handle, and
appends exactly the persisted record of the call (if the call persists
one). -/
theorem V1.step_props (st : V1.ReporterState) (c : V1.RecCall) (rid : String)
    (hj : st.isJenkins = true) (hr : st.pipelineRunId = some rid)
    (hrid : rid ≠ "") (l : List V1.TestCaseRec) (hf : st.file = some l) :
    (V1.step st c).isJenkins = true ∧
    (V1.step st c).pipelineRunId = some rid ∧
    (V1.step st c).startTime = st.startTime ∧
    (V1.step st c).envRunId = st.envRunId ∧
    (V1.step st c).file = some (l ++ (V1.persistedOf c).toList) := by
  cases hc : c.net with
  | fail =>
      simp [V1.step, V1.afterEachTest, V1.markTestStart, V1.getPipelineRunId,
        jsStr, hj, hr, hrid, hf, V1.persistedOf, hc]
  | resp s d =>
      by_cases h2 : 200 ≤ s ∧ s < 300
      · by_cases hs : c.saveOk = true
        · simp [V1.step, V1.afterEachTest, V1.markTestStart,
            V1.getPipelineRunId, V1.saveTestCaseToFile, V1.computeDurationMs,
            jsStr, hj, hr, hrid, hf, V1.persistedOf, hc, h2, hs]
        · simp [V1.step, V1.afterEachTest, V1.markTestStart,
            V1.getPipelineRunId, V1.saveTestCaseToFile, V1.computeDurationMs,
            jsStr, hj, hr, hrid, hf, V1.persistedOf, hc, h2, hs]
      · simp [V1.step, V1.afterEachTest, V1.markTestStart,
          V1.getPipelineRunId, jsStr, hj, hr, hrid, hf, V1.persistedOf, hc, h2]

/-- Folding the harness steps of the first variant over a whole list of
recordTest calls: the persisted file collects exactly the records of the
calls that persisted one, in call order, after whatever the file already
held. -/
theorem V1.fold_props (calls : List V1.RecCall) (st : V1.ReporterState)
    (rid : String) (hj : st.isJenkins = true)
    (hr : st.pipelineRunId = some rid) (hrid : rid ≠ "")
    (l : List V1.TestCaseRec) (hf : st.file = some l) :
    (calls.foldl V1.step st).isJenkins = true ∧
    (calls.foldl V1.step st).pipelineRunId = some rid ∧
    (calls.foldl V1.step st).startTime = st.startTime ∧
    (calls.foldl V1.step st).envRunId = st.envRunId ∧
    (calls.foldl V1.step st).file =
      some (l ++ calls.filterMap V1.persistedOf) := by
  induction calls generalizing st l with
  | nil => simp [hj, hr, hf]
  | cons c cs ih =>
      obtain ⟨p1, p2, p3, p4, p5⟩ := V1.step_props st c rid hj hr hrid l hf
      rw [List.foldl_cons]
      obtain ⟨q1, q2, q3, q4, q5⟩ :=
        ih (V1.step st c) p1 p2 (l ++ (V1.persistedOf c).toList) p5
      refine ⟨q1, q2, ?_, ?_, ?_⟩
      · rw [q3, p3]
      · rw [q4, p4]
      · rw [q5]
        cases hp : V1.persistedOf c <;> simp [List.filterMap_cons, hp]

/-- One harness step of the second variant, taken in an enabled state
with a truthy cached run id and an existing file. -/
theorem V2.step_invariants (st : V2.ReporterState) (c : V2.RecCall) (rid : String)
    (hj : st.isJenkins = true) (hr : st.pipelineRunId = some rid)
    (hrid : rid ≠ "") (l : List V2.TestCaseRec) (hf : st.file = some l) :
    (V2.step st c).isJenkins = true ∧
    (V2.step st c).pipelineRunId = some rid ∧
    (V2.step st c).startTime = st.startTime ∧
    (V2.step st c).envRunId = st.envRunId ∧
    (V2.step st c).file = some (l ++ (V2.persistedOf c).toList) := by
  cases hc : c.net with
  | fail =>
      simp [V2.step, V2.afterEachTest, V2.markTestStart, V2.getPipelineRunId,
        jsStr, hj, hr, hrid, hf, V2.persistedOf, hc]
  | resp s d =>
      by_cases hs : c.saveOk = true
      · simp [V2.step, V2.afterEachTest, V2.markTestStart,
          V2.getPipelineRunId, V2.saveTestCaseToFile, V2.computeDurationMs,
          jsStr, hj, hr, hrid, hf, V2.persistedOf, hc, hs]
      · simp [V2.step, V2.afterEachTest, V2.markTestStart,
          V2.getPipelineRunId, V2.saveTestCaseToFile, V2.computeDurationMs,
          jsStr, hj, hr, hrid, hf, V2.persistedOf, hc, hs]

/-- Folding the harness steps of the second variant over a whole list of
recordTest calls. -/
theorem V2.fold_invariants (calls : List V2.RecCall) (st : V2.ReporterState)
    (rid : String) (hj : st.isJenkins = true)
    (hr : st.pipelineRunId = some rid) (hrid : rid ≠ "")
    (l : List V2.TestCaseRec) (hf : st.file = some l) :
    (calls.foldl V2.step st).isJenkins = true ∧
    (calls.foldl V2.step st).pipelineRunId = some rid ∧
    (calls.foldl V2.step st).startTime = st.startTime ∧
    (calls.foldl V2.step st).envRunId = st.envRunId ∧
    (calls.foldl V2.step st).file =
      some (l ++ calls.filterMap V2.persistedOf) := by
  induction calls generalizing st l with
  | nil => simp [hj, hr, hf]
  | cons c cs ih =>
      obtain ⟨p1, p2, p3, p4, p5⟩ := V2.step_invariants st c rid hj hr hrid l hf
      rw [List.foldl_cons]
      obtain ⟨q1, q2, q3, q4, q5⟩ :=
        ih (V2.step st c) p1 p2 (l ++ (V2.persistedOf c).toList) p5
      refine ⟨q1, q2, ?_, ?_, ?_⟩
      · rw [q3, p3]
      · rw [q4, p4]
      · rw [q5]
        cases hp : V2.persistedOf c <;> simp [List.filterMap_cons, hp]

/-- C9: in the aggregate payload computed at finish by either variant,
passed + failed + aborted is at most total_tests, with equality exactly
when every persisted record has status passed, failed or skipped; a
record with any other status is counted in total_tests but in none of
the three categories, and the overall status is failed exactly when some
record has status failed (so an unknown status does not force failed). -/
theorem c9_category_counts :
    (∀ (tcs : List V1.TestCaseRec) (t0 : Option Int) (now : Int),
      (V1.finishPayload tcs t0 now).passed +
        (V1.finishPayload tcs t0 now).failed +
        (V1.finishPayload tcs t0 now).aborted ≤
        (V1.finishPayload tcs t0 now).total_tests ∧
      ((V1.finishPayload tcs t0 now).passed +
        (V1.finishPayload tcs t0 now).failed +
        (V1.finishPayload tcs t0 now).aborted =
        (V1.finishPayload tcs t0 now).total_tests ↔
        ∀ tc ∈ tcs, tc.status = "passed" ∨ tc.status = "failed" ∨
          tc.status = "skipped") ∧
      ((V1.finishPayload tcs t0 now).status = "failed" ↔
        ∃ tc ∈ tcs, tc.status = "failed")) ∧
    (∀ (tests : List V2.TestCaseRec) (now : Int),
      (V2.finishPayload tests now).passed +
        (V2.finishPayload tests now).failed +
        (V2.finishPayload tests now).aborted ≤
        (V2.finishPayload tests now).total_tests ∧
      ((V2.finishPayload tests now).passed +
        (V2.finishPayload tests now).failed +
        (V2.finishPayload tests now).aborted =
        (V2.finishPayload tests now).total_tests ↔
        ∀ tc ∈ tests, tc.status = "passed" ∨ tc.status = "failed" ∨
          tc.status = "skipped") ∧
      ((V2.finishPayload tests now).status = "failed" ↔
        ∃ tc ∈ tests, tc.status = "failed")) := by
  constructor
  · intro tcs t0 now
    rw [V1.finishPayload_eq]
    obtain ⟨hle, hiff⟩ :=
      count_three_statuses tcs (fun tc : V1.TestCaseRec => tc.status)
    refine ⟨hle, hiff, ?_⟩
    by_cases h : tcs.countP (fun tc => tc.status == "failed") = 0
    · have hall := List.countP_eq_zero.mp h
      simp only [h, if_pos rfl]
      constructor
      · intro hps
        exact absurd hps (by decide)
      · rintro ⟨tc, htc, hs⟩
        exact absurd (by simpa [beq_iff_eq] using hs) (hall tc htc)
    · simp only [h, if_neg h]
      constructor
      · intro _
        rcases List.countP_pos_iff.mp (Nat.pos_of_ne_zero h) with ⟨tc, htc, hp⟩
        exact ⟨tc, htc, by simpa [beq_iff_eq] using hp⟩
      · intro _
        rfl
  · intro tests now
    rw [V2.finishPayload_counts]
    obtain ⟨hle, hiff⟩ :=
      count_three_statuses tests (fun tc : V2.TestCaseRec => tc.status)
    refine ⟨hle, hiff, ?_⟩
    by_cases h : tests.countP (fun tc => tc.status == "failed") = 0
    · have hall := List.countP_eq_zero.mp h
      simp only [h, gt_iff_lt, Nat.lt_irrefl, if_false]
      constructor
      · intro hps
        exact absurd hps (by decide)
      · rintro ⟨tc, htc, hs⟩
        exact absurd (by simpa [beq_iff_eq] using hs) (hall tc htc)
    · have hpos : 0 < tests.countP (fun tc => tc.status == "failed") :=
        Nat.pos_of_ne_zero h
      simp only [gt_iff_lt, hpos, if_pos hpos]
      constructor
      · intro _
        rcases List.countP_pos_iff.mp hpos with ⟨tc, htc, hp⟩
        exact ⟨tc, htc, by simpa [beq_iff_eq] using hp⟩
      · intro _
        rfl

/-- C10: for every non-negative millisecond count, formatDuration renders
a hours:minutes:seconds string with every component zero-padded to at
least two digits, minutes and seconds below sixty, and the components
summing to floor(ms/1000) seconds; and the duration field the second
variant sends, and the one it persists, is exactly this formatted string,
not a numeric count. -/
theorem c10_formatDuration_shape :
    (∀ ms : Nat, ∃ h m s : Nat,
      m < 60 ∧ s < 60 ∧ h * 3600 + m * 60 + s = ms / 1000 ∧
      V2.formatDuration ms =
        padStart2 (toString h) ++ ":" ++ padStart2 (toString m) ++ ":" ++
          padStart2 (toString s) ∧
      2 ≤ (padStart2 (toString h)).length ∧
      2 ≤ (padStart2 (toString m)).length ∧
      2 ≤ (padStart2 (toString s)).length) ∧
    (∀ (α : Type) (st : V2.ReporterState) (title status feat : String)
       (t now : Int) (netOut : NetOutcome α) (saveOk : Bool) (rid : String),
      st.isJenkins = true → st.pipelineRunId = some rid → rid ≠ "" →
      ∃ p : V2.TestCasePayload,
        (V2.afterEachTest (V2.markTestStart st t) title status feat now
          netOut saveOk).net = some (.createTestCase p) ∧
        p.duration = V2.formatDuration (now - t).toNat ∧
        (∀ (s : Nat) (d : α), netOut = .resp s d → saveOk = true →
          (V2.afterEachTest (V2.markTestStart st t) title status feat now
            netOut saveOk).st.file =
            some (st.file.getD [] ++ [⟨title, feat, status, p.duration⟩]))) := by
  constructor
  · intro ms
    refine ⟨ms / 1000 / 3600, ms / 1000 % 3600 / 60, ms / 1000 % 60,
      ?_, ?_, ?_, rfl, padStart2_length _, padStart2_length _,
      padStart2_length _⟩
    · exact (Nat.div_lt_iff_lt_mul (by norm_num)).mpr
        (Nat.mod_lt _ (by norm_num))
    · exact Nat.mod_lt _ (by norm_num)
    · have h1 := Nat.div_add_mod (ms / 1000) 3600
      have h2 := Nat.div_add_mod (ms / 1000 % 3600) 60
      have h3 : ms / 1000 % 3600 % 60 = ms / 1000 % 60 :=
        Nat.mod_mod_of_dvd _ ⟨60, rfl⟩
      omega
  · intro α st title status feat t now netOut saveOk rid hj hr hrid
    refine ⟨{ run := rid, name := title, feature := feat, status := status,
              duration := V2.formatDuration (now - t).toNat,
              start_time := t, end_time := now,
              report_link := st.cfg.buildUrl }, ?_, rfl, ?_⟩
    · cases netOut with
      | fail =>
          simp [V2.afterEachTest, V2.markTestStart, V2.getPipelineRunId,
            V2.computeDurationMs, jsStr, hj, hr, hrid]
      | resp s d =>
          cases hs : saveOk <;>
            simp [V2.afterEachTest, V2.markTestStart, V2.getPipelineRunId,
              V2.computeDurationMs, V2.saveTestCaseToFile, jsStr, hj, hr,
              hrid, hs]
    · intro s d hnet hsave
      subst hnet
      subst hsave
      simp [V2.afterEachTest, V2.markTestStart, V2.getPipelineRunId,
        V2.computeDurationMs, V2.saveTestCaseToFile, jsStr, hj, hr, hrid]

/-- State after a successful start of the first variant: run id cached
and exported, start time recorded, persisted file reset to the empty
array. -/
theorem V1.beforeAllTests_happy_st (cfg : V1.Config) (env0 : Option String)
    (file0 : Option (List V1.TestCaseRec)) (t0 : Int) (rid : String) :
    (V1.beforeAllTests (V1.initialState cfg true env0 file0) t0 true
      (.resp 201 ⟨rid⟩)).st =
      ⟨true, some rid, some rid, some t0, none, some [], cfg⟩ := by
  simp [V1.beforeAllTests, V1.initialState, V1.clearTestCasesFile]

/-- The finish call of the first variant, in an enabled state with a
truthy cached run id, on a successful file read and a 2xx response,
PATCHes the aggregate of the stored records. -/
theorem V1.afterAllTests_net (st : V1.ReporterState) (tEnd : Int)
    (rid : String) (hj : st.isJenkins = true)
    (hr : st.pipelineRunId = some rid) (hrid : rid ≠ "")
    (L : List V1.TestCaseRec) (hf : st.file = some L) :
    (V1.afterAllTests (α := Unit) st tEnd true (.resp 200 ())).net =
      some (.updateRun rid (V1.finishPayload L st.startTime tEnd)) := by
  simp [V1.afterAllTests, V1.getPipelineRunId, V1.readTestCasesFromFile,
    jsStr, hj, hr, hrid, hf]

/-- Successful start of the second variant. -/
theorem V2.beforeAllTests_happy (cfg : V2.Config) (env0 : Option String)
    (file0 : Option (List V2.TestCaseRec)) (t0 : Int) (rid : String)
    (hrid : rid ≠ "") :
    V2.beforeAllTests (V2.initialState cfg true env0 file0) t0 true
      (.resp 201 ⟨some rid⟩) =
      .ok ⟨some ⟨some rid⟩,
           ⟨true, some rid, some rid, some t0, none, some [], cfg⟩,
           some (.createRun (V2.startPayload
             ⟨true, none, env0, some t0, none, some [], cfg⟩ t0))⟩ := by
  simp [V2.beforeAllTests, V2.initialState, V2.clearTestCasesFile, jsStr,
    hrid, Bind.bind, Except.bind, pure, Except.pure]

/-- The finish call of the second variant, in an enabled state with a
truthy cached run id, on a successful file read and a resolved response. -/
theorem V2.afterAllTests_ok (st : V2.ReporterState) (tEnd : Int)
    (rid : String) (hj : st.isJenkins = true)
    (hr : st.pipelineRunId = some rid) (hrid : rid ≠ "")
    (L : List V2.TestCaseRec) (hf : st.file = some L) :
    V2.afterAllTests (α := Unit) st tEnd true (.resp 200 ()) =
      .ok ⟨some (), st, some (.updateRun rid (V2.finishPayload L tEnd))⟩ := by
  simp [V2.afterAllTests, V2.getPipelineRunId, V2.readTestCasesFromFile,
    jsStr, hj, hr, hrid, hf, Bind.bind, Except.bind, pure, Except.pure]

/-- A recordTest call of the first variant whose network request resolved
with 2xx and whose append succeeded persists exactly one record, carrying
its own title and status. -/
theorem V1.persistedOf_happy (c : V1.RecCall) (h1 : c.net.ok2xx = true)
    (h2 : c.saveOk = true) :
    ∃ r : V1.TestCaseRec, V1.persistedOf c = some r ∧
      r.status = c.status ∧ r.name = c.title := by
  cases hn : c.net with
  | fail =>
      rw [hn] at h1
      exact absurd h1 (by decide)
  | resp s d =>
      have hp : 200 ≤ s ∧ s < 300 := by
        rw [hn] at h1
        simpa [NetOutcome.ok2xx, Bool.and_eq_true, decide_eq_true_eq] using h1
      exact ⟨⟨(jsStr d.test_id).getD "N/A", c.title, c.status,
              c.endAt - c.markAt, c.endAt⟩,
             by simp [V1.persistedOf, hn, hp, h2], rfl, rfl⟩

/-- Under all-successful per-call outcomes, the first variant persists
one record per call, preserving the multiset of statuses. -/
theorem V1.filterMap_happy (calls : List V1.RecCall)
    (hok : ∀ c ∈ calls, c.net.ok2xx = true ∧ c.saveOk = true) :
    (calls.filterMap V1.persistedOf).length = calls.length ∧
    ∀ x : String,
      (calls.filterMap V1.persistedOf).countP (fun r => r.status == x) =
        calls.countP (fun c => c.status == x) := by
  induction calls with
  | nil => simp
  | cons c cs ih =>
      obtain ⟨h1, h2⟩ := hok c (List.mem_cons_self c cs)
      obtain ⟨r, hr, hrs, _⟩ := V1.persistedOf_happy c h1 h2
      obtain ⟨ihl, ihc⟩ := ih (fun c hc => hok c (List.mem_cons_of_mem _ hc))
      rw [List.filterMap_cons, hr]
      constructor
      · simp [ihl]
      · intro x
        simp [List.countP_cons, ihc x, hrs]

/-- A recordTest call of the second variant whose network request
resolved and whose append succeeded persists exactly one record. -/
theorem V2.persistedOf_success (c : V2.RecCall) (h1 : c.net.ok2xx = true)
    (h2 : c.saveOk = true) :
    ∃ r : V2.TestCaseRec, V2.persistedOf c = some r ∧
      r.status = c.status ∧ r.name = c.title := by
  cases hn : c.net with
  | fail =>
      rw [hn] at h1
      exact absurd h1 (by decide)
  | resp s d =>
      exact ⟨⟨c.title, c.feature, c.status,
              V2.formatDuration (c.endAt - c.markAt).toNat⟩,
             by simp [V2.persistedOf, hn, h2], rfl, rfl⟩

/-- Under all-successful per-call outcomes, the second variant persists
one record per call, preserving the multiset of statuses. -/
theorem V2.filterMap_success (calls : List V2.RecCall)
    (hok : ∀ c ∈ calls, c.net.ok2xx = true ∧ c.saveOk = true) :
    (calls.filterMap V2.persistedOf).length = calls.length ∧
    ∀ x : String,
      (calls.filterMap V2.persistedOf).countP (fun r => r.status == x) =
        calls.countP (fun c => c.status == x) := by
  induction calls with
  | nil => simp
  | cons c cs ih =>
      obtain ⟨h1, h2⟩ := hok c (List.mem_cons_self c cs)
      obtain ⟨r, hr, hrs, _⟩ := V2.persistedOf_success c h1 h2
      obtain ⟨ihl, ihc⟩ := ih (fun c hc => hok c (List.mem_cons_of_mem _ hc))
      rw [List.filterMap_cons, hr]
      constructor
      · simp [ihl]
      · intro x
        simp [List.countP_cons, ihc x, hrs]

/-- C1: for every sequence of recordTest calls made between a successful
start and a finish, with every per-call side effect succeeding, the
aggregate payload the finish call sends reports total equal to the number
of persisted records (one per call), passed/failed/aborted counts equal
to the exact multiset of recorded statuses, and overall run status failed
exactly when at least one recorded test has status failed; the empty
sequence yields the all-zero payload with status passed.  Proved for both
helper variants. -/
theorem c1_finish_reports_recorded_multiset :
    (∀ (cfg : V1.Config) (env0 : Option String)
       (file0 : Option (List V1.TestCaseRec)) (t0 tEnd : Int) (rid : String)
       (calls : List V1.RecCall),
      rid ≠ "" →
      (∀ c ∈ calls, c.net.ok2xx = true ∧ c.saveOk = true) →
      ∃ p : V1.FinishPayload,
        (V1.runScript cfg env0 file0 t0 true (.resp 201 ⟨rid⟩) calls tEnd
          true (.resp 200 ())).net = some (.updateRun rid p) ∧
        p.total_tests = calls.length ∧
        p.passed = calls.countP (fun c => c.status == "passed") ∧
        p.failed = calls.countP (fun c => c.status == "failed") ∧
        p.aborted = calls.countP (fun c => c.status == "skipped") ∧
        p.status = (if calls.any (fun c => c.status == "failed")
                    then "failed" else "passed") ∧
        (calls = [] →
          p = ⟨"passed", tEnd, (tEnd - t0) / 1000, 0, 0, 0, 0⟩)) ∧
    (∀ (cfg : V2.Config) (env0 : Option String)
       (file0 : Option (List V2.TestCaseRec)) (t0 tEnd : Int) (rid : String)
       (calls : List V2.RecCall),
      rid ≠ "" →
      (∀ c ∈ calls, c.net.ok2xx = true ∧ c.saveOk = true) →
      ∃ (res : V2.StepResult Unit) (p : V2.FinishPayload),
        V2.runScript cfg env0 file0 t0 true (.resp 201 ⟨some rid⟩) calls tEnd
          true (.resp 200 ()) = .ok res ∧
        res.net = some (.updateRun rid p) ∧
        p.total_tests = calls.length ∧
        p.passed = calls.countP (fun c => c.status == "passed") ∧
        p.failed = calls.countP (fun c => c.status == "failed") ∧
        p.aborted = calls.countP (fun c => c.status == "skipped") ∧
        p.status = (if calls.any (fun c => c.status == "failed")
                    then "failed" else "passed") ∧
        (calls = [] → p = ⟨"passed", tEnd, 0, 0, 0, 0⟩)) := by
  constructor
  · intro cfg env0 file0 t0 tEnd rid calls hrid hok
    have hst := V1.beforeAllTests_happy_st cfg env0 file0 t0 rid
    obtain ⟨hj', hr', hstart', henv', hf'⟩ :=
      V1.fold_props calls
        ((V1.beforeAllTests (V1.initialState cfg true env0 file0) t0 true
          (.resp 201 ⟨rid⟩)).st) rid (by rw [hst]) (by rw [hst]) hrid []
        (by rw [hst])
    rw [List.nil_append] at hf'
    have hstart2 : (calls.foldl V1.step
        ((V1.beforeAllTests (V1.initialState cfg true env0 file0) t0 true
          (.resp 201 ⟨rid⟩)).st)).startTime = some t0 := by
      rw [hstart', hst]
    have hnet := V1.afterAllTests_net _ tEnd rid hj' hr' hrid _ hf'
    rw [hstart2] at hnet
    obtain ⟨hlen, hcnt⟩ := V1.filterMap_happy calls hok
    refine ⟨V1.finishPayload (calls.filterMap V1.persistedOf) (some t0) tEnd,
      ?_, ?_, ?_, ?_, ?_, ?_, ?_⟩
    · simpa [V1.runScript] using hnet
    · simp [V1.finishPayload_eq, hlen]
    · simp [V1.finishPayload_eq, hcnt]
    · simp [V1.finishPayload_eq, hcnt]
    · simp [V1.finishPayload_eq, hcnt]
    · rw [V1.finishPayload_eq]
      simp only [hcnt]
      by_cases hany : calls.any (fun c => c.status == "failed") = true
      · obtain ⟨c, hc, hcs⟩ := List.any_eq_true.mp hany
        have hne : calls.countP (fun c => c.status == "failed") ≠ 0 :=
          Nat.pos_iff_ne_zero.mp (List.countP_pos_iff.mpr ⟨c, hc, hcs⟩)
        simp [hany, hne]
      · have hz : calls.countP (fun c => c.status == "failed") = 0 :=
          List.countP_eq_zero.mpr
            (fun c hc hcs => hany (List.any_eq_true.mpr ⟨c, hc, hcs⟩))
        simp [hany, hz]
    · intro h
      subst h
      simp [V1.finishPayload]
  · intro cfg env0 file0 t0 tEnd rid calls hrid hok
    have hst := V2.beforeAllTests_happy cfg env0 file0 t0 rid hrid
    obtain ⟨hj', hr', hstart', henv', hf'⟩ :=
      V2.fold_invariants calls
        (⟨true, some rid, some rid, some t0, none, some [], cfg⟩ :
          V2.ReporterState) rid rfl rfl hrid [] rfl
    rw [List.nil_append] at hf'
    have hfin := V2.afterAllTests_ok _ tEnd rid hj' hr' hrid _ hf'
    obtain ⟨hlen, hcnt⟩ := V2.filterMap_success calls hok
    refine ⟨⟨some (), calls.foldl V2.step
        (⟨true, some rid, some rid, some t0, none, some [], cfg⟩ :
          V2.ReporterState),
        some (.updateRun rid (V2.finishPayload
          (calls.filterMap V2.persistedOf) tEnd))⟩,
      V2.finishPayload (calls.filterMap V2.persistedOf) tEnd,
      ?_, ?_, ?_, ?_, ?_, ?_, ?_, ?_⟩
    · show V2.runScript cfg env0 file0 t0 true (.resp 201 ⟨some rid⟩) calls
        tEnd true (.resp 200 ()) = .ok _
      rw [V2.runScript, hst]
      simp only [Bind.bind, Except.bind]
      exact hfin
    · rfl
    · simp [V2.finishPayload_counts, hlen]
    · simp [V2.finishPayload_counts, hcnt]
    · simp [V2.finishPayload_counts, hcnt]
    · simp [V2.finishPayload_counts, hcnt]
    · rw [V2.finishPayload_counts]
      simp only [hcnt]
      by_cases hany : calls.any (fun c => c.status == "failed") = true
      · obtain ⟨c, hc, hcs⟩ := List.any_eq_true.mp hany
        have hpos : 0 < calls.countP (fun c => c.status == "failed") :=
          List.countP_pos_iff.mpr ⟨c, hc, hcs⟩
        simp [hany, hpos]
      · have hz : calls.countP (fun c => c.status == "failed") = 0 :=
          List.countP_eq_zero.mpr
            (fun c hc hcs => hany (List.any_eq_true.mpr ⟨c, hc, hcs⟩))
        simp [hany, hz]
    · intro h
      subst h
      simp [V2.finishPayload]

/-- Concrete happy calls used by the C1 witness. -/
def c1wCalls : List V1.RecCall :=
  [⟨"t1", "passed", none, 0, 1500, .resp 201 ⟨some "tc1"⟩, true⟩,
   ⟨"t2", "failed", some "boom", 2000, 2500, .resp 201 ⟨none⟩, true⟩]

/-- Witness for C1 at a concrete two-call run. -/
theorem c1_witness :
    ("r1" : String) ≠ "" ∧
    (∀ c ∈ c1wCalls, c.net.ok2xx = true ∧ c.saveOk = true) ∧
    (∃ p : V1.FinishPayload,
      (V1.runScript cfg1 none none 0 true (.resp 201 ⟨"r1"⟩) c1wCalls 5000
        true (.resp 200 ())).net = some (.updateRun "r1" p) ∧
      p.total_tests = c1wCalls.length ∧
      p.passed = c1wCalls.countP (fun c => c.status == "passed") ∧
      p.failed = c1wCalls.countP (fun c => c.status == "failed") ∧
      p.aborted = c1wCalls.countP (fun c => c.status == "skipped") ∧
      p.status = (if c1wCalls.any (fun c => c.status == "failed")
                  then "failed" else "passed") ∧
      (c1wCalls = [] →
        p = ⟨"passed", 5000, ((5000 : Int) - 0) / 1000, 0, 0, 0, 0⟩)) :=
  ⟨by decide, by decide,
   c1_finish_reports_recorded_multiset.1 cfg1 none none 0 5000 "r1" c1wCalls
     (by decide) (by decide)⟩

/-- Concrete recordTest call whose network request fails, used by C2 and
C4. -/
def c2FailCall : V1.RecCall := ⟨"t1", "passed", none, 0, 1500, .fail, true⟩

/-- C2 counterexample: one recordTest call is made after a successful
start (the run id is resolvable), its network request fails, and the
sequence read back at finish is empty: the call did not append a record,
so the persisted sequence is not the sequence of recordTest calls. -/
theorem c2_counterexample :
    V1.readTestCasesFromFile
      ([c2FailCall].foldl V1.step
        (V1.beforeAllTests (V1.initialState cfg1 true none none) 0 true
          (.resp 201 ⟨"r1"⟩)).st) true = [] ∧
    [c2FailCall].length = 1 := by
  constructor
  · rfl
  · rfl

/-- C2 amended: after a successful start resets the file, the sequence
read back at finish equals, in order, the records of exactly those
recordTest calls made since the start whose network request resolved with
a 2xx status and whose local append succeeded; the start call resets the
persisted sequence to empty, and neither markTestStart nor the finish
call mutates the file. -/
theorem c2_amended_persisted_sequence
    (cfg : V1.Config) (env0 : Option String)
    (file0 : Option (List V1.TestCaseRec)) (t0 : Int) (rid : String)
    (calls : List V1.RecCall) (hrid : rid ≠ "") :
    V1.readTestCasesFromFile
      (calls.foldl V1.step
        (V1.beforeAllTests (V1.initialState cfg true env0 file0) t0 true
          (.resp 201 ⟨rid⟩)).st) true = calls.filterMap V1.persistedOf ∧
    (V1.beforeAllTests (V1.initialState cfg true env0 file0) t0 true
      (.resp 201 ⟨rid⟩)).st.file = some [] ∧
    (∀ (st : V1.ReporterState) (t : Int),
      (V1.markTestStart st t).file = st.file) ∧
    (∀ (α : Type) (st : V1.ReporterState) (tEnd : Int) (readOk : Bool)
       (netOut : NetOutcome α),
      (V1.afterAllTests st tEnd readOk netOut).st.file = st.file) := by
  have hst := V1.beforeAllTests_happy_st cfg env0 file0 t0 rid
  refine ⟨?_, ?_, fun st t => rfl, ?_⟩
  · obtain ⟨hj', hr', _, _, hf'⟩ :=
      V1.fold_props calls
        ((V1.beforeAllTests (V1.initialState cfg true env0 file0) t0 true
          (.resp 201 ⟨rid⟩)).st) rid (by rw [hst]) (by rw [hst]) hrid []
        (by rw [hst])
    rw [List.nil_append] at hf'
    simp [V1.readTestCasesFromFile, hf']
  · rw [hst]
  · intro α st tEnd readOk netOut
    simp only [V1.afterAllTests, V1.getPipelineRunId]
    cases hj : st.isJenkins <;>
      cases hp : jsStr st.pipelineRunId <;>
      cases he : jsStr st.envRunId <;>
      cases netOut <;>
      simp [hj, hp, he] <;>
      split_ifs <;>
      rfl

/-- Witness for the C2 amended theorem at a concrete run with one failed
and one successful call. -/
theorem c2_amended_witness :
    ("r1" : String) ≠ "" ∧
    (V1.readTestCasesFromFile
      ([c2FailCall,
        ⟨"t2", "failed", some "boom", 2000, 2500,
         .resp 201 ⟨some "tc2"⟩, true⟩].foldl V1.step
        (V1.beforeAllTests (V1.initialState cfg1 true none none) 0 true
          (.resp 201 ⟨"r1"⟩)).st) true =
      [c2FailCall,
       ⟨"t2", "failed", some "boom", 2000, 2500,
        .resp 201 ⟨some "tc2"⟩, true⟩].filterMap V1.persistedOf ∧
    (V1.beforeAllTests (V1.initialState cfg1 true none none) 0 true
      (.resp 201 ⟨"r1"⟩)).st.file = some [] ∧
    (∀ (st : V1.ReporterState) (t : Int),
      (V1.markTestStart st t).file = st.file) ∧
    (∀ (α : Type) (st : V1.ReporterState) (tEnd : Int) (readOk : Bool)
       (netOut : NetOutcome α),
      (V1.afterAllTests st tEnd readOk netOut).st.file = st.file)) :=
  ⟨by decide,
   c2_amended_persisted_sequence cfg1 none none 0 "r1"
     [c2FailCall,
      ⟨"t2", "failed", some "boom", 2000, 2500,
       .resp 201 ⟨some "tc2"⟩, true⟩] (by decide)⟩

/-- C4 counterexample: a recordTest call of the first variant, made in an
enabled state with a resolvable run id and an empty persisted array,
whose network request fails: the compact local record is NOT appended
(the file stays the empty array) and the call returns null. -/
theorem c4_counterexample :
    (V1.afterEachTest stEnabled1 "t1" "passed" none 5 .fail true).st.file
      = some [] ∧
    (V1.afterEachTest stEnabled1 "t1" "passed" none 5 .fail true).ret
      = none := ⟨rfl, rfl⟩

/-- C4 amended: with a resolvable run identifier, the compact local
record is appended exactly when the network request succeeds (a resolved
2xx response in the first variant, any resolved response in the second)
and the file append itself succeeds; when the network request fails, no
local append occurs. -/
theorem c4_amended_append_requires_net_success :
    (∀ (st : V1.ReporterState) (title status : String) (err : Option String)
       (now : Int) (saveOk : Bool) (rid : String),
      st.isJenkins = true → st.pipelineRunId = some rid → rid ≠ "" →
      ((V1.afterEachTest st title status err now .fail saveOk).st.file
         = st.file) ∧
      (∀ (s : Nat) (d : V1.TCResp), ¬(200 ≤ s ∧ s < 300) →
        (V1.afterEachTest st title status err now (.resp s d) saveOk).st.file
          = st.file) ∧
      (∀ (s : Nat) (d : V1.TCResp), (200 ≤ s ∧ s < 300) → saveOk = true →
        (V1.afterEachTest st title status err now (.resp s d) saveOk).st.file
          = some (st.file.getD [] ++
              [⟨(jsStr d.test_id).getD "N/A", title, status,
                V1.computeDurationMs st now, now⟩]))) ∧
    (∀ (α : Type) (st : V2.ReporterState) (title status feat : String)
       (now : Int) (saveOk : Bool) (rid : String),
      st.isJenkins = true → st.pipelineRunId = some rid → rid ≠ "" →
      ((V2.afterEachTest (α := α) st title status feat now .fail
          saveOk).st.file = st.file) ∧
      (∀ (s : Nat) (d : α), saveOk = true →
        (V2.afterEachTest st title status feat now (.resp s d)
          saveOk).st.file
          = some (st.file.getD [] ++
              [⟨title, feat, status,
                V2.formatDuration (V2.computeDurationMs st now).toNat⟩]))) := by
  constructor
  · intro st title status err now saveOk rid hj hr hrid
    refine ⟨?_, ?_, ?_⟩
    · simp [V1.afterEachTest, V1.getPipelineRunId, jsStr, hj, hr, hrid]
    · intro s d hs
      simp [V1.afterEachTest, V1.getPipelineRunId, jsStr, hj, hr, hrid, hs]
    · intro s d hs hsave
      simp [V1.afterEachTest, V1.getPipelineRunId, V1.saveTestCaseToFile,
        jsStr, hj, hr, hrid, hs, hsave]
  · intro α st title status feat now saveOk rid hj hr hrid
    refine ⟨?_, ?_⟩
    · simp [V2.afterEachTest, V2.getPipelineRunId, jsStr, hj, hr, hrid]
    · intro s d hsave
      simp [V2.afterEachTest, V2.getPipelineRunId, V2.saveTestCaseToFile,
        jsStr, hj, hr, hrid, hsave]

/-- Witness for the C4 amended theorem at concrete enabled states. -/
theorem c4_amended_witness :
    stEnabled1.isJenkins = true ∧ stEnabled1.pipelineRunId = some "r1" ∧
    (((V1.afterEachTest stEnabled1 "t1" "passed" none 5 .fail true).st.file
        = stEnabled1.file) ∧
     (∀ (s : Nat) (d : V1.TCResp), ¬(200 ≤ s ∧ s < 300) →
       (V1.afterEachTest stEnabled1 "t1" "passed" none 5 (.resp s d)
         true).st.file = stEnabled1.file) ∧
     (∀ (s : Nat) (d : V1.TCResp), (200 ≤ s ∧ s < 300) → true = true →
       (V1.afterEachTest stEnabled1 "t1" "passed" none 5 (.resp s d)
         true).st.file
         = some (stEnabled1.file.getD [] ++
             [⟨(jsStr d.test_id).getD "N/A", "t1", "passed",
               V1.computeDurationMs stEnabled1 5, 5⟩]))) :=
  ⟨rfl, rfl,
   c4_amended_append_requires_net_success.1 stEnabled1 "t1" "passed" none 5
     true "r1" rfl rfl (by decide)⟩

/-- C3 counterexample: the finish call of the second variant, enabled and
with a resolvable run id, propagates an exception to the caller when the
persisted file exists but reading it fails, instead of absorbing the
failure and returning null (the read happens outside the try block). -/
theorem c3_counterexample :
    V2.afterAllTests (α := Unit) stEnabled2 5 false (.resp 200 ()) =
      .error "readTestCasesFromFile read error" := rfl

/-- C3 amended: every operation of the first variant absorbs every
network and file failure and returns null on failed outcomes; in the
second variant, recordTest likewise absorbs every failure, and start and
finish absorb network failures, but a file write error while start clears
the test-cases file and a file read error while finish reads it back
escape to the caller, so absorption for those two operations holds only
when the corresponding file operation succeeds. -/
theorem c3_amended_failure_absorption :
    (∀ (st : V1.ReporterState) (now : Int) (clearOk : Bool)
       (netOut : NetOutcome V1.RunResp),
      netOut.ok2xx = false →
      (V1.beforeAllTests st now clearOk netOut).ret = none) ∧
    (∀ (st : V1.ReporterState) (title status : String) (err : Option String)
       (now : Int) (netOut : NetOutcome V1.TCResp) (saveOk : Bool),
      netOut.ok2xx = false →
      (V1.afterEachTest st title status err now netOut saveOk).ret = none) ∧
    (∀ (α : Type) (st : V1.ReporterState) (now : Int) (readOk : Bool)
       (netOut : NetOutcome α),
      netOut.ok2xx = false →
      (V1.afterAllTests st now readOk netOut).ret = none) ∧
    (∀ (α : Type) (st : V2.ReporterState) (title status feat : String)
       (now : Int) (saveOk : Bool),
      (V2.afterEachTest (α := α) st title status feat now .fail
        saveOk).ret = none) ∧
    (∀ (α : Type) (st : V2.ReporterState) (title status feat : String)
       (now : Int) (s : Nat) (d : α),
      (V2.afterEachTest st title status feat now (.resp s d)
        false).ret = none) ∧
    (∀ (st : V2.ReporterState) (now : Int) (netOut : NetOutcome V2.RunResp),
      (V2.beforeAllTests st now true netOut).isOk = true ∧
      (V2.beforeAllTests st now true
        (.fail : NetOutcome V2.RunResp)).map (fun r => r.ret) = .ok none) ∧
    (∀ (α : Type) (st : V2.ReporterState) (now : Int)
       (netOut : NetOutcome α),
      (V2.afterAllTests st now true netOut).isOk = true ∧
      (V2.afterAllTests (α := α) st now true
        (.fail : NetOutcome α)).map (fun r => r.ret) = .ok none) := by
  refine ⟨?_, ?_, ?_, ?_, ?_, ?_, ?_⟩
  · intro st now clearOk netOut hfail
    cases netOut with
    | fail => cases hj : st.isJenkins <;> simp [V1.beforeAllTests, hj]
    | resp s d =>
        simp only [NetOutcome.ok2xx] at hfail
        have hs : ¬(200 ≤ s ∧ s < 300) := by
          intro ⟨h1, h2⟩
          simp [h1, h2] at hfail
        cases hj : st.isJenkins <;> simp [V1.beforeAllTests, hj, hs]
  · intro st title status err now netOut saveOk hfail
    cases netOut with
    | fail =>
        cases hj : st.isJenkins <;>
          cases hgp : jsStr st.pipelineRunId <;>
          cases hge : jsStr st.envRunId <;>
          simp [V1.afterEachTest, V1.getPipelineRunId, hj, hgp, hge]
    | resp s d =>
        simp only [NetOutcome.ok2xx] at hfail
        have hs : ¬(200 ≤ s ∧ s < 300) := by
          intro ⟨h1, h2⟩
          simp [h1, h2] at hfail
        cases hj : st.isJenkins <;>
          cases hgp : jsStr st.pipelineRunId <;>
          cases hge : jsStr st.envRunId <;>
          simp [V1.afterEachTest, V1.getPipelineRunId, hj, hgp, hge, hs]
  · intro α st now readOk netOut hfail
    cases netOut with
    | fail =>
        cases hj : st.isJenkins <;>
          cases hgp : jsStr st.pipelineRunId <;>
          cases hge : jsStr st.envRunId <;>
          simp [V1.afterAllTests, V1.getPipelineRunId, hj, hgp, hge]
    | resp s d =>
        simp only [NetOutcome.ok2xx] at hfail
        have hs : ¬(200 ≤ s ∧ s < 300) := by
          intro ⟨h1, h2⟩
          simp [h1, h2] at hfail
        cases hj : st.isJenkins <;>
          cases hgp : jsStr st.pipelineRunId <;>
          cases hge : jsStr st.envRunId <;>
          simp [V1.afterAllTests, V1.getPipelineRunId, hj, hgp, hge, hs]
  · intro α st title status feat now saveOk
    cases hj : st.isJenkins <;>
      cases hgp : jsStr st.pipelineRunId <;>
      cases hge : jsStr st.envRunId <;>
      simp [V2.afterEachTest, V2.getPipelineRunId, hj, hgp, hge]
  · intro α st title status feat now s d
    cases hj : st.isJenkins <;>
      cases hgp : jsStr st.pipelineRunId <;>
      cases hge : jsStr st.envRunId <;>
      simp [V2.afterEachTest, V2.getPipelineRunId, V2.saveTestCaseToFile,
        hj, hgp, hge]
  · intro st now netOut
    constructor
    · cases netOut with
      | fail =>
          cases hj : st.isJenkins <;>
            simp [V2.beforeAllTests, V2.clearTestCasesFile, hj, Bind.bind,
              Except.bind, pure, Except.pure, Except.isOk, Except.toBool]
      | resp s d =>
          cases hj : st.isJenkins <;>
            cases hjr : jsStr d.run_id <;>
            simp [V2.beforeAllTests, V2.clearTestCasesFile, hj, hjr,
              Bind.bind, Except.bind, pure, Except.pure, Except.isOk,
              Except.toBool]
    · cases hj : st.isJenkins <;>
        simp [V2.beforeAllTests, V2.clearTestCasesFile, hj, Bind.bind,
          Except.bind, pure, Except.pure, Except.map]
  · intro α st now netOut
    constructor
    · cases netOut with
      | fail =>
          cases hj : st.isJenkins <;>
            cases hgp : jsStr st.pipelineRunId <;>
            cases hge : jsStr st.envRunId <;>
            cases hf : st.file <;>
            simp [V2.afterAllTests, V2.getPipelineRunId,
              V2.readTestCasesFromFile, hj, hgp, hge, hf, Bind.bind,
              Except.bind, pure, Except.pure, Except.isOk, Except.toBool]
      | resp s d =>
          cases hj : st.isJenkins <;>
            cases hgp : jsStr st.pipelineRunId <;>
            cases hge : jsStr st.envRunId <;>
            cases hf : st.file <;>
            simp [V2.afterAllTests, V2.getPipelineRunId,
              V2.readTestCasesFromFile, hj, hgp, hge, hf, Bind.bind,
              Except.bind, pure, Except.pure, Except.isOk, Except.toBool]
    · cases hj : st.isJenkins <;>
        cases hgp : jsStr st.pipelineRunId <;>
        cases hge : jsStr st.envRunId <;>
        cases hf : st.file <;>
        simp [V2.afterAllTests, V2.getPipelineRunId,
          V2.readTestCasesFromFile, hj, hgp, hge, hf, Bind.bind,
          Except.bind, pure, Except.pure, Except.map]

/-- Witness for the C3 amended theorem: a concrete failed start of the
first variant returns null. -/
theorem c3_amended_witness :
    (NetOutcome.fail : NetOutcome V1.RunResp).ok2xx = false ∧
    (V1.beforeAllTests stEnabled1 0 true
      (.fail : NetOutcome V1.RunResp)).ret = none :=
  ⟨rfl, c3_amended_failure_absorption.1 stEnabled1 0 true .fail rfl⟩

/-- C5: with reporting disabled, every operation of both variants returns
null, issues no network request, and leaves the whole state, hence the
persisted file, untouched, whatever its arguments; repeated calls
therefore also have no effect. -/
theorem c5_disabled_noop :
    (∀ (st : V1.ReporterState) (now : Int) (clearOk : Bool)
       (netOut : NetOutcome V1.RunResp), st.isJenkins = false →
      V1.beforeAllTests st now clearOk netOut = ⟨none, st, none⟩) ∧
    (∀ (st : V1.ReporterState) (title status : String) (err : Option String)
       (now : Int) (netOut : NetOutcome V1.TCResp) (saveOk : Bool),
      st.isJenkins = false →
      V1.afterEachTest st title status err now netOut saveOk =
        ⟨none, st, none⟩) ∧
    (∀ (α : Type) (st : V1.ReporterState) (now : Int) (readOk : Bool)
       (netOut : NetOutcome α), st.isJenkins = false →
      V1.afterAllTests st now readOk netOut = ⟨none, st, none⟩) ∧
    (∀ (st : V2.ReporterState) (now : Int) (clearOk : Bool)
       (netOut : NetOutcome V2.RunResp), st.isJenkins = false →
      V2.beforeAllTests st now clearOk netOut = .ok ⟨none, st, none⟩) ∧
    (∀ (α : Type) (st : V2.ReporterState) (title status feat : String)
       (now : Int) (netOut : NetOutcome α) (saveOk : Bool),
      st.isJenkins = false →
      V2.afterEachTest st title status feat now netOut saveOk =
        ⟨none, st, none⟩) ∧
    (∀ (α : Type) (st : V2.ReporterState) (now : Int) (readOk : Bool)
       (netOut : NetOutcome α), st.isJenkins = false →
      V2.afterAllTests st now readOk netOut = .ok ⟨none, st, none⟩) := by
  refine ⟨?_, ?_, ?_, ?_, ?_, ?_⟩
  · intro st now clearOk netOut hj
    simp [V1.beforeAllTests, hj]
  · intro st title status err now netOut saveOk hj
    simp [V1.afterEachTest, hj]
  · intro α st now readOk netOut hj
    simp [V1.afterAllTests, hj]
  · intro st now clearOk netOut hj
    simp [V2.beforeAllTests, hj, pure, Except.pure]
  · intro α st title status feat now netOut saveOk hj
    simp [V2.afterEachTest, hj]
  · intro α st now readOk netOut hj
    simp [V2.afterAllTests, hj, pure, Except.pure]

/-- Concrete disabled first-variant state. -/
def stDisabled1 : V1.ReporterState :=
  { stEnabled1 with isJenkins := false }

/-- Witness for C5 at a concrete disabled state. -/
theorem c5_witness :
    stDisabled1.isJenkins = false ∧
    V1.beforeAllTests stDisabled1 0 true (.resp 201 ⟨"r1"⟩) =
      ⟨none, stDisabled1, none⟩ :=
  ⟨rfl, c5_disabled_noop.1 stDisabled1 0 true (.resp 201 ⟨"r1"⟩) rfl⟩

/-- C6: with reporting enabled but no resolvable run identifier (neither
a truthy cached id nor a truthy environment handle), recordTest and
finish in both variants return null, issue no network request, and do
not touch the persisted file (the result state only renormalises the
falsy cache field to null). -/
theorem c6_missing_run_id_skip :
    (∀ (st : V1.ReporterState) (title status : String) (err : Option String)
       (now : Int) (netOut : NetOutcome V1.TCResp) (saveOk : Bool),
      st.isJenkins = true → jsStr st.pipelineRunId = none →
      jsStr st.envRunId = none →
      V1.afterEachTest st title status err now netOut saveOk =
        ⟨none, { st with pipelineRunId := none }, none⟩) ∧
    (∀ (α : Type) (st : V1.ReporterState) (now : Int) (readOk : Bool)
       (netOut : NetOutcome α),
      st.isJenkins = true → jsStr st.pipelineRunId = none →
      jsStr st.envRunId = none →
      V1.afterAllTests st now readOk netOut =
        ⟨none, { st with pipelineRunId := none }, none⟩) ∧
    (∀ (α : Type) (st : V2.ReporterState) (title status feat : String)
       (now : Int) (netOut : NetOutcome α) (saveOk : Bool),
      st.isJenkins = true → jsStr st.pipelineRunId = none →
      jsStr st.envRunId = none →
      V2.afterEachTest st title status feat now netOut saveOk =
        ⟨none, { st with pipelineRunId := none }, none⟩) ∧
    (∀ (α : Type) (st : V2.ReporterState) (now : Int) (readOk : Bool)
       (netOut : NetOutcome α),
      st.isJenkins = true → jsStr st.pipelineRunId = none →
      jsStr st.envRunId = none →
      V2.afterAllTests st now readOk netOut =
        .ok ⟨none, { st with pipelineRunId := none }, none⟩) := by
  refine ⟨?_, ?_, ?_, ?_⟩
  · intro st title status err now netOut saveOk hj hgp hge
    simp [V1.afterEachTest, V1.getPipelineRunId, hj, hgp, hge]
  · intro α st now readOk netOut hj hgp hge
    simp [V1.afterAllTests, V1.getPipelineRunId, hj, hgp, hge]
  · intro α st title status feat now netOut saveOk hj hgp hge
    simp [V2.afterEachTest, V2.getPipelineRunId, hj, hgp, hge]
  · intro α st now readOk netOut hj hgp hge
    simp [V2.afterAllTests, V2.getPipelineRunId, hj, hgp, hge, pure,
      Except.pure, Bind.bind, Except.bind]

/-- Concrete enabled first-variant state with no resolvable run id (the
cache holds the falsy empty string, the environment holds nothing). -/
def stNoRunId1 : V1.ReporterState :=
  { stEnabled1 with pipelineRunId := some "", envRunId := none }

/-- Witness for C6 at a concrete enabled state with no resolvable id. -/
theorem c6_witness :
    stNoRunId1.isJenkins = true ∧ jsStr stNoRunId1.pipelineRunId = none ∧
    jsStr stNoRunId1.envRunId = none ∧
    V1.afterEachTest stNoRunId1 "t1" "passed" none 5
      (.resp 201 ⟨some "tc1"⟩) true =
      ⟨none, { stNoRunId1 with pipelineRunId := none }, none⟩ :=
  ⟨rfl, rfl, rfl,
   c6_missing_run_id_skip.1 stNoRunId1 "t1" "passed" none 5
     (.resp 201 ⟨some "tc1"⟩) true rfl rfl rfl⟩

/-- C7: the duration a recordTest call computes is the time elapsed since
the most recent markTestStart (the mark overwrites any earlier mark), it
is non-negative whenever the clock is monotone (the record instant is not
before the mark), and it defaults to zero when markTestStart was never
called.  Proved on the payload of the first variant and on the duration
computation of the second. -/
theorem c7_duration_since_last_mark :
    (∀ (st : V1.ReporterState) (t1 t2 : Int),
      (V1.markTestStart (V1.markTestStart st t1) t2).testStartTime =
        some t2) ∧
    (∀ (st : V1.ReporterState) (title status : String) (err : Option String)
       (t now : Int) (netOut : NetOutcome V1.TCResp) (saveOk : Bool)
       (rid : String),
      st.isJenkins = true → st.pipelineRunId = some rid → rid ≠ "" →
      ∃ p : V1.TestCasePayload,
        (V1.afterEachTest (V1.markTestStart st t) title status err now
          netOut saveOk).net = some (.createTestCase p) ∧
        p.durationMs = now - t ∧ (t ≤ now → 0 ≤ p.durationMs)) ∧
    (∀ (st : V1.ReporterState) (title status : String) (err : Option String)
       (now : Int) (netOut : NetOutcome V1.TCResp) (saveOk : Bool)
       (rid : String),
      st.isJenkins = true → st.pipelineRunId = some rid → rid ≠ "" →
      st.testStartTime = none →
      ∃ p : V1.TestCasePayload,
        (V1.afterEachTest st title status err now netOut saveOk).net =
          some (.createTestCase p) ∧ p.durationMs = 0) ∧
    (∀ (st : V2.ReporterState) (t now : Int),
      V2.computeDurationMs (V2.markTestStart st t) now = now - t) ∧
    (∀ (st : V2.ReporterState) (now : Int), st.testStartTime = none →
      V2.computeDurationMs st now = 0) := by
  refine ⟨fun st t1 t2 => rfl, ?_, ?_, fun st t now => rfl, ?_⟩
  · intro st title status err t now netOut saveOk rid hj hr hrid
    refine ⟨⟨title, status, rid, now - t, now, t,
             V1.errorField err status⟩, ?_, rfl, fun h => sub_nonneg.mpr h⟩
    cases netOut with
    | fail =>
        simp [V1.afterEachTest, V1.markTestStart, V1.getPipelineRunId,
          V1.computeDurationMs, jsStr, hj, hr, hrid]
    | resp s d =>
        by_cases hs : 200 ≤ s ∧ s < 300 <;>
          cases hsv : saveOk <;>
          simp [V1.afterEachTest, V1.markTestStart, V1.getPipelineRunId,
            V1.computeDurationMs, V1.saveTestCaseToFile, jsStr, hj, hr,
            hrid, hs, hsv]
  · intro st title status err now netOut saveOk rid hj hr hrid hts
    refine ⟨⟨title, status, rid, 0, now, now,
             V1.errorField err status⟩, ?_, rfl⟩
    cases netOut with
    | fail =>
        simp [V1.afterEachTest, V1.getPipelineRunId, V1.computeDurationMs,
          jsStr, hj, hr, hrid, hts]
    | resp s d =>
        by_cases hs : 200 ≤ s ∧ s < 300 <;>
          cases hsv : saveOk <;>
          simp [V1.afterEachTest, V1.getPipelineRunId, V1.computeDurationMs,
            V1.saveTestCaseToFile, jsStr, hj, hr, hrid, hts, hs, hsv]
  · intro st now hts
    simp [V2.computeDurationMs, hts]

/-- Witness for C7 at a concrete marked state of the first variant. -/
theorem c7_witness :
    stEnabled1.isJenkins = true ∧ stEnabled1.pipelineRunId = some "r1" ∧
    (∃ p : V1.TestCasePayload,
      (V1.afterEachTest (V1.markTestStart stEnabled1 100) "t1" "passed"
        none 1600 (.resp 201 ⟨some "tc1"⟩) true).net =
        some (.createTestCase p) ∧
      p.durationMs = (1600 : Int) - 100 ∧
      ((100 : Int) ≤ 1600 → 0 ≤ p.durationMs)) :=
  ⟨rfl, rfl,
   c7_duration_since_last_mark.2.1 stEnabled1 "t1" "passed" none 100 1600
     (.resp 201 ⟨some "tc1"⟩) true "r1" rfl rfl (by decide)⟩

/-- C8 counterexample: a recordTest call of the first variant with status
failed and the non-null empty string as error message produces a payload
with NO error-message field, so a non-null error message alone does not
guarantee the field is present. -/
theorem c8_counterexample :
    (V1.afterEachTest stEnabled1 "t1" "failed" (some "") 5
      (.resp 201 ⟨some "tc1"⟩) true).net =
      some (.createTestCase ⟨"t1", "failed", "r1", 5, 5, 0, none⟩) := by
  decide

/-- C8 amended: the payload carries the error-message field exactly when
the status is failed and the error message is non-null AND non-empty, in
which case the field is the message truncated to at most 500 characters;
with a non-failed status, an absent message, or the empty message, the
payload has no error-message field. -/
theorem c8_amended_error_message_field :
    (∀ (st : V1.ReporterState) (title status : String) (err : Option String)
       (now : Int) (netOut : NetOutcome V1.TCResp) (saveOk : Bool)
       (rid : String),
      st.isJenkins = true → st.pipelineRunId = some rid → rid ≠ "" →
      ∃ p : V1.TestCasePayload,
        (V1.afterEachTest st title status err now netOut saveOk).net =
          some (.createTestCase p) ∧
        p.error_message = V1.errorField err status) ∧
    (∀ m : String, V1.errorField (some m) "failed" =
      if m = "" then none else some (truncate500 m)) ∧
    (∀ status : String, V1.errorField none status = none) ∧
    (∀ (err : Option String) (status : String), status ≠ "failed" →
      V1.errorField err status = none) ∧
    (∀ (err : Option String) (status x : String),
      V1.errorField err status = some x →
      x.length ≤ 500 ∧ ∃ m, err = some m ∧ x = truncate500 m ∧
        status = "failed") := by
  refine ⟨?_, ?_, fun status => rfl, ?_, ?_⟩
  · intro st title status err now netOut saveOk rid hj hr hrid
    refine ⟨⟨title, status, rid, V1.computeDurationMs st now, now,
             st.testStartTime.getD now, V1.errorField err status⟩, ?_, rfl⟩
    cases netOut with
    | fail =>
        simp [V1.afterEachTest, V1.getPipelineRunId, jsStr, hj, hr, hrid]
    | resp s d =>
        by_cases hs : 200 ≤ s ∧ s < 300 <;>
          cases hsv : saveOk <;>
          simp [V1.afterEachTest, V1.getPipelineRunId,
            V1.saveTestCaseToFile, jsStr, hj, hr, hrid, hs, hsv]
  · intro m
    by_cases hm : m = ""
    · simp [V1.errorField, hm]
    · simp [V1.errorField, hm]
  · intro err status hst
    cases err with
    | none => rfl
    | some m => simp [V1.errorField, hst]
  · intro err status x hx
    cases err with
    | none => simp [V1.errorField] at hx
    | some m =>
        simp only [V1.errorField] at hx
        by_cases hc : m ≠ "" ∧ status = "failed"
        · rw [if_pos hc] at hx
          obtain rfl : truncate500 m = x := Option.some.inj hx
          exact ⟨truncate500_length m, m, rfl, rfl, hc.2⟩
        · rw [if_neg hc] at hx
          exact absurd hx (by simp)

/-- Witness for the C8 amended theorem at a concrete failed call with a
long error message. -/
theorem c8_amended_witness :
    stEnabled1.isJenkins = true ∧ stEnabled1.pipelineRunId = some "r1" ∧
    (∃ p : V1.TestCasePayload,
      (V1.afterEachTest stEnabled1 "t1" "failed" (some "boom") 5
        (.resp 201 ⟨some "tc1"⟩) true).net = some (.createTestCase p) ∧
      p.error_message = V1.errorField (some "boom") "failed") :=
  ⟨rfl, rfl,
   c8_amended_error_message_field.1 stEnabled1 "t1" "failed" (some "boom")
     5 (.resp 201 ⟨some "tc1"⟩) true "r1" rfl rfl (by decide)⟩

/-- Witness for C10 at a concrete call of the second variant. -/
theorem c10_witness :
    stEnabled2.isJenkins = true ∧ stEnabled2.pipelineRunId = some "r1" ∧
    (∃ p : V2.TestCasePayload,
      (V2.afterEachTest (V2.markTestStart stEnabled2 0) "t1" "passed"
        "General" 1500 (NetOutcome.resp 201 ()) true).net =
        some (.createTestCase p) ∧
      p.duration = V2.formatDuration ((1500 : Int) - 0).toNat ∧
      (∀ (s : Nat) (d : Unit),
        (NetOutcome.resp 201 () : NetOutcome Unit) = .resp s d →
        true = true →
        (V2.afterEachTest (V2.markTestStart stEnabled2 0) "t1" "passed"
          "General" 1500 (NetOutcome.resp 201 ()) true).st.file =
          some (stEnabled2.file.getD [] ++
            [⟨"t1", "General", "passed", p.duration⟩]))) :=
  ⟨rfl, rfl,
   c10_formatDuration_shape.2 Unit stEnabled2 "t1" "passed" "General" 0
     1500 (.resp 201 ()) true "r1" rfl rfl (by decide)⟩
